import Mathlib

/-!
Verification of the expense-tracker repository (database.py, user.py,
financial_report.py, main.py) against its natural-language specification.

The Python code is shallowly embedded: the relational tables become lists of
records, each data-access method becomes a pure function on an explicit state
(SQL row semantics is written out from the literal statements in the source),
interactive prompts whose validation loops always converge become parameters
holding the validated value, and Python exception behaviour is made explicit
with `Except` where a claim depends on it.  Attribute lookup on the `Database`
object is modelled by the list of method names the class actually defines,
because two call sites in the repository name attributes that do not exist
(`db.check_eligible` in `User.delete_transaction`, `self.db.fetch_data` in the
`FinancialReport.fetch_*` helpers) and the resulting `AttributeError` decides
several claims.
-/

namespace ExpenseTracker

/-- Python exceptions that matter to the embedded fragments: `AttributeError`
raised by attribute lookup on an object lacking the attribute (never caught by
an `except ValueError` or `except psycopg2.DatabaseError` handler), and
`ValueError` raised by `int(...)` on a non-integer string. -/
inductive PyErr where
  | attributeError (attr : String)
  | valueError (s : String)
deriving DecidableEq

/-- Idealised model of a bcrypt hash, treating the library as the black box the
spec declares it to be: `bcrypt.hashpw` packages the password with the salt and
`bcrypt.checkpw` succeeds exactly on the password that produced the hash. -/
structure BcryptHash where
  pw : String
  salt : Nat
deriving DecidableEq

/-- Model of `bcrypt.hashpw(password, gensalt())` from user.py. -/
def bcrypt_hashpw (pw : String) (salt : Nat) : BcryptHash := ⟨pw, salt⟩

/-- Model of `bcrypt.checkpw(password, stored_hash)` from user.py. -/
def bcrypt_checkpw (pw : String) (h : BcryptHash) : Bool := pw == h.pw

/-- Row of the `users` table (database.py db_init): serial `user_id`, unique
`username`, hashed `password`, unique `email`. -/
structure UserRec where
  user_id : Int
  username : String
  password : BcryptHash
  email : String
deriving DecidableEq

/-- Row of the `transactions` table (database.py db_init): serial
`transaction_id`, owner `user_id`, `amount`, `category`, `description`,
`date`, and `type` (1 = Income, 2 = Expense).  Amounts are modelled as
integers (the claims only ever compare sums with null/zero). -/
structure Txn where
  transaction_id : Int
  user_id : Int
  amount : Int
  category : Int
  description : String
  date : String
  type_of_transaction : Int
deriving DecidableEq

/-- The mutable database contents the user/transaction operations touch. -/
structure DBState where
  users : List UserRec
  user_seq : Int
  transactions : List Txn
deriving DecidableEq

/-- The method names the `Database` class in database.py defines.  Python
resolves `db.<name>` against this set; any other name raises
`AttributeError`. -/
def databaseMethods : List String :=
  ["connect", "close", "db_init", "add_user", "get_user", "add_transaction",
   "show_all_transactions", "show_total_income", "show_total_expenses",
   "delete_transaction", "update_amount_of_transaction",
   "update_description_of_transaction", "check_if_eligible"]

/-- Fault scenarios for a data-access call: the connection attempt fails
(psycopg2.connect raises, `connect` swallows it, `self.connection` stays
`None`), or the query itself raises `psycopg2.DatabaseError`. -/
inductive DBFault where
  | connectFail
  | queryFail
deriving DecidableEq

/-- Embedding of `Database.check_if_eligible` (database.py, error-free path):
`SELECT user_id FROM transactions WHERE transaction_id = %s` with `fetchone()`
is the first row matching the id; `None` prints not-found and returns `False`,
otherwise the result is `user_id == result[0]`. -/
def check_if_eligible (st : DBState) (user_id transaction_id : Int) : Bool :=
  match st.transactions.find? (fun t => t.transaction_id == transaction_id) with
  | none => false
  | some row => user_id == row.user_id

/-- Embedding of `Database.delete_transaction` (database.py):
`DELETE FROM transactions WHERE transaction_id=%s`. -/
def db_delete_transaction (st : DBState) (transaction_id : Int) : DBState :=
  { st with transactions :=
      st.transactions.filter (fun t => t.transaction_id != transaction_id) }

/-- Embedding of `Database.update_amount_of_transaction` (database.py):
`UPDATE transactions set amount=%s WHERE transaction_id=%s`. -/
def update_amount_of_transaction (st : DBState) (amount transaction_id : Int) :
    DBState :=
  { st with transactions := st.transactions.map (fun t =>
      if t.transaction_id == transaction_id then { t with amount := amount } else t) }

/-- Embedding of `Database.update_description_of_transaction` (database.py):
`UPDATE transactions set description=%s WHERE transaction_id=%s`. -/
def update_description_of_transaction (st : DBState) (description : String)
    (transaction_id : Int) : DBState :=
  { st with transactions := st.transactions.map (fun t =>
      if t.transaction_id == transaction_id then { t with description := description } else t) }

/-- Embedding of `User.delete_transaction` (user.py) after the transaction id
has been read.  The body evaluates `db.check_eligible(user_id, transaction_id)`;
the `Database` class defines no attribute `check_eligible` (only
`check_if_eligible`), so attribute lookup raises `AttributeError`, which the
surrounding `except ValueError` handler does not catch. -/
def user_delete_transaction (st : DBState) (user_id transaction_id : Int) :
    Except PyErr DBState :=
  if databaseMethods.contains "check_eligible" then
    if check_if_eligible st user_id transaction_id then
      .ok (db_delete_transaction st transaction_id)
    else
      .ok st
  else
    .error (.attributeError "check_eligible")

/-- The field-update choice reached by `User.update_transaction`'s inner
`while True` loop once a valid `1` or `2` has been typed ([1] Amount,
[2] Description), together with the validated replacement value collected by
`get_amount` / `get_description`. -/
inductive UpdateChoice where
  | amount (v : Int)
  | description (s : String)
deriving DecidableEq

/-- Embedding of `User.update_transaction` (user.py) after the transaction id
has been parsed: if `db.check_if_eligible(user_id, transaction_id)` holds, the
chosen field is updated; otherwise the method falls through and the state is
untouched. -/
def user_update_transaction (st : DBState) (user_id transaction_id : Int)
    (choice : UpdateChoice) : DBState :=
  if check_if_eligible st user_id transaction_id then
    match choice with
    | .amount v => update_amount_of_transaction st v transaction_id
    | .description s => update_description_of_transaction st s transaction_id
  else st

/-- Digit run of Python `int(...)`: consumes decimal digits into an
accumulator, failing on any other character. -/
def pyDigits : List Char → Nat → Option Nat
  | [], acc => some acc
  | c :: cs, acc =>
      if c.isDigit then pyDigits cs (acc * 10 + (c.toNat - 48)) else none

/-- Model of Python `int(string)`: optional surrounding spaces, an optional
sign, then one or more decimal digits; any other shape raises `ValueError`
(`none` here). -/
def pyInt (s : String) : Option Int :=
  let cs := s.toList.dropWhile (fun c => c == ' ')
  let cs := (cs.reverse.dropWhile (fun c => c == ' ')).reverse
  match cs with
  | [] => none
  | '-' :: rest =>
      if rest.isEmpty then none
      else (pyDigits rest 0).map (fun n => -(n : Int))
  | '+' :: rest =>
      if rest.isEmpty then none
      else (pyDigits rest 0).map (fun n => (n : Int))
  | _ => (pyDigits cs 0).map (fun n => (n : Int))

/-- Embedding of the entry line of `User.update_transaction` (user.py):
`transaction_id = int(input(...))` stands outside every `try` block, so a
non-integer line makes `int` raise `ValueError` straight past the method. -/
def user_update_transaction_entry (st : DBState) (user_id : Int) (line : String)
    (choice : UpdateChoice) : Except PyErr DBState :=
  match pyInt line with
  | none => .error (.valueError line)
  | some transaction_id => .ok (user_update_transaction st user_id transaction_id choice)

/-- Embedding of `Database.get_user` (database.py, error-free path):
`SELECT user_id, username, password, email FROM users WHERE username = %s`
with `fetchone()` is the first matching row; a found row becomes the user
record, otherwise the result is `None`. -/
def get_user (st : DBState) (username : String) : Option UserRec :=
  st.users.find? (fun u => u.username == username)

/-- Embedding of `Database.get_user` with its fault scenarios made explicit.
When `connect()` fails it swallows the `psycopg2.DatabaseError` and leaves
`self.connection = None`, so `self.connection.cursor()` raises
`AttributeError` on `None`, which the `except psycopg2.DatabaseError` handler
does not catch; a `DatabaseError` raised by the query itself is caught and
collapses to `None`. -/
def get_user_run (fault : Option DBFault) (st : DBState) (username : String) :
    Except PyErr (Option UserRec) :=
  match fault with
  | some .connectFail => .error (.attributeError "cursor")
  | some .queryFail => .ok none
  | none => .ok (get_user st username)

/-- Embedding of `User.login` (user.py): look up the record by username; an
absent record prints "Username not found." and returns `False`; otherwise the
result is `bcrypt.checkpw(password, stored_hash)`.  The whole body sits in a
`try/except Exception` returning `False`, so no exception escapes; the
embedding is total. -/
def login (st : DBState) (username password : String) : Bool :=
  match get_user st username with
  | none => false
  | some u => bcrypt_checkpw password u.password

/-- Embedding of `Database.add_user` (database.py): `INSERT INTO
users(username, password, email) VALUES (%s, %s, %s)` succeeds and returns
`True` unless the UNIQUE constraints on `username` or `email` are violated, in
which case the `psycopg2.DatabaseError` is caught and `False` returned with
the table unchanged. -/
def add_user (st : DBState) (username : String) (hashed_password : BcryptHash)
    (email : String) : Bool × DBState :=
  if st.users.any (fun u => u.username == username || u.email == email) then
    (false, st)
  else
    (true, { st with
        users := st.users ++ [⟨st.user_seq, username, hashed_password, email⟩],
        user_seq := st.user_seq + 1 })

/-- Result of `User.register`: the returned flag, the resulting table state,
and whether `db.add_user` was invoked at all. -/
structure RegisterResult where
  ok : Bool
  st : DBState
  add_user_called : Bool
deriving DecidableEq

/-- Embedding of `User.check_email` (user.py).  The external
`email_validator.validate_email` call is passed in as `validator`, returning
the normalized address for a syntactically valid email; on
`EmailNotValidError` the method prints and returns `None`. -/
def check_email (validator : String → Option String) (email : String) :
    Option String :=
  validator email

/-- Embedding of `User.register` (user.py): hash the password, validate the
email, and return `False` before any data-access call when validation fails;
otherwise persist through `db.add_user` and return its flag. -/
def register (validator : String → Option String) (salt : Nat)
    (username password email : String) (st : DBState) : RegisterResult :=
  let hashed_password := bcrypt_hashpw password salt
  match check_email validator email with
  | none => ⟨false, st, false⟩
  | some valid_email =>
      let r := add_user st username hashed_password valid_email
      ⟨r.1, r.2, true⟩

/-- Embedding of `Database.show_total_income` (database.py, error-free path):
`select sum(amount) from transactions where user_id = %s and type = 1` —
SQL `SUM` over zero rows is NULL, so `fetchone()[0]` is `None` exactly when
the user has no income rows, else the numeric sum. -/
def show_total_income (st : DBState) (user_id : Int) : Option Int :=
  let rows := st.transactions.filter
    (fun t => t.user_id == user_id && t.type_of_transaction == 1)
  if rows.isEmpty then none
  else some (rows.foldl (fun acc t => acc + t.amount) 0)

/-- Embedding of `Database.show_total_expenses` (database.py, error-free
path): the same query with `type = 2`. -/
def show_total_expenses (st : DBState) (user_id : Int) : Option Int :=
  let rows := st.transactions.filter
    (fun t => t.user_id == user_id && t.type_of_transaction == 2)
  if rows.isEmpty then none
  else some (rows.foldl (fun acc t => acc + t.amount) 0)

/-- Embedding of `Database.show_total_income` with fault scenarios: a
`psycopg2.DatabaseError` from the query is caught, printed, and the method
falls off its end, returning Python's implicit `None`; a failed `connect`
leaves `self.connection = None` and `self.connection.cursor()` raises
`AttributeError` uncaught. -/
def show_total_income_run (fault : Option DBFault) (st : DBState)
    (user_id : Int) : Except PyErr (Option Int) :=
  match fault with
  | some .connectFail => .error (.attributeError "cursor")
  | some .queryFail => .ok none
  | none => .ok (show_total_income st user_id)

/-- Embedding of `Database.show_total_expenses` with fault scenarios, exactly
as `show_total_income_run`. -/
def show_total_expenses_run (fault : Option DBFault) (st : DBState)
    (user_id : Int) : Except PyErr (Option Int) :=
  match fault with
  | some .connectFail => .error (.attributeError "cursor")
  | some .queryFail => .ok none
  | none => .ok (show_total_expenses st user_id)

/-- Embedding of `FinancialReport.fetch_total_income_from_db`
(financial_report.py): the body evaluates `self.db.fetch_data(query, user_id)`
inside `try/except Exception`.  The `Database` class defines no attribute
`fetch_data`, so lookup raises `AttributeError`, the handler catches it,
prints, and returns `None`. -/
def fetch_total_income_from_db (st : DBState) (user_id : Int) :
    Option (List Int) :=
  if databaseMethods.contains "fetch_data" then
    some ((st.transactions.filter
      (fun t => t.user_id == user_id && t.type_of_transaction == 1)).map Txn.amount)
  else none

/-- Embedding of `FinancialReport.fetch_total_expenses_from_db`
(financial_report.py), identical shape with the Expense type. -/
def fetch_total_expenses_from_db (st : DBState) (user_id : Int) :
    Option (List Int) :=
  if databaseMethods.contains "fetch_data" then
    some ((st.transactions.filter
      (fun t => t.user_id == user_id && t.type_of_transaction == 2)).map Txn.amount)
  else none

/-- Embedding of `FinancialReport.fetch_all_transactions_from_db`
(financial_report.py): same `self.db.fetch_data` call inside
`try/except Exception`, so the same `AttributeError` is caught and `None`
returned. -/
def fetch_all_transactions_from_db (st : DBState) (user_id : Int) :
    Option (List Txn) :=
  if databaseMethods.contains "fetch_data" then
    some (st.transactions.filter (fun t => t.user_id == user_id))
  else none

/-- Rows of `pd.DataFrame(result, columns=['Amount'])`: `None` gives an empty
frame, a list gives its rows. -/
def frame_rows (result : Option (List Int)) : List Int :=
  match result with
  | none => []
  | some l => l

/-- Embedding of `FinancialReport.generate_total_income_report`
(financial_report.py): build the frame from the fetched rows; an empty frame
yields the empty report, otherwise one row with the user id and the summed
amounts. -/
def generate_total_income_report (st : DBState) (user_id : Int) :
    Option (Int × Int) :=
  let df := frame_rows (fetch_total_income_from_db st user_id)
  if df.isEmpty then none
  else some (user_id, df.foldl (fun acc a => acc + a) 0)

/-- Embedding of `FinancialReport.generate_total_expenses_report`
(financial_report.py). -/
def generate_total_expenses_report (st : DBState) (user_id : Int) :
    Option (Int × Int) :=
  let df := frame_rows (fetch_total_expenses_from_db st user_id)
  if df.isEmpty then none
  else some (user_id, df.foldl (fun acc a => acc + a) 0)

/-- Embedding of `FinancialReport.calculate_total_income`
(financial_report.py): `0` when the report frame is empty, else its total. -/
def calculate_total_income (st : DBState) (user_id : Int) : Int :=
  match generate_total_income_report st user_id with
  | none => 0
  | some r => r.2

/-- Embedding of `FinancialReport.calculate_total_expenses`
(financial_report.py). -/
def calculate_total_expenses (st : DBState) (user_id : Int) : Int :=
  match generate_total_expenses_report st user_id with
  | none => 0
  | some r => r.2

/-- State of the schema objects that `Database.db_init` touches: whether each
table exists, and the rows with the serial sequences of the two lookup
tables. -/
structure SchemaState where
  users_tbl : Bool
  categories_tbl : Bool
  types_tbl : Bool
  transactions_tbl : Bool
  categories : List (Int × String)
  cat_seq : Int
  types : List (Int × String)
  type_seq : Int
deriving DecidableEq

/-- The six category names db_init seeds. -/
def seedCategoryNames : List String :=
  ["Food", "Transportation", "Utilities", "Entertainment", "Health", "Account"]

/-- The two type names db_init seeds. -/
def seedTypeNames : List String := ["Income", "Expense"]

/-- The CREATE TABLE statement for `categories` in db_init declares only
`category_id serial PRIMARY KEY` and `category_name VARCHAR(255)`: no UNIQUE
constraint on the name column. -/
def categories_name_unique : Bool := false

/-- The CREATE TABLE statement for `types` declares only
`type_id serial PRIMARY KEY` and `type_name VARCHAR(10)`: no UNIQUE
constraint on the name column. -/
def types_name_unique : Bool := false

/-- PostgreSQL semantics of `INSERT ... VALUES ... ON CONFLICT DO NOTHING`
into a two-column lookup table: each row is skipped only when inserting it
would violate a unique constraint.  The serial primary key never conflicts
(every row takes a fresh sequence value), so a row is skipped iff the name
column carries a unique constraint and the name is already present. -/
def insert_on_conflict_do_nothing (name_unique : Bool) (names : List String)
    (tbl : List (Int × String)) (seq : Int) : List (Int × String) × Int :=
  names.foldl
    (fun acc name =>
      if name_unique && acc.1.any (fun r => r.2 == name) then acc
      else (acc.1 ++ [(acc.2, name)], acc.2 + 1))
    (tbl, seq)

/-- Effect of `CREATE TABLE IF NOT EXISTS` on a lookup table: a missing table
is created empty with its serial sequence at 1; an existing table and its
rows are untouched. -/
def create_lookup_if_not_exists (exists_tbl : Bool)
    (tbl : List (Int × String)) (seq : Int) : List (Int × String) × Int :=
  if exists_tbl then (tbl, seq) else ([], 1)

/-- Embedding of `Database.db_init` (database.py, error-free path): create the
four tables if absent, then run the two seeding inserts with
`ON CONFLICT DO NOTHING` under the constraints the CREATE statements actually
declare, and commit. -/
def db_init (st : SchemaState) : SchemaState :=
  let cats0 := create_lookup_if_not_exists st.categories_tbl st.categories st.cat_seq
  let tys0 := create_lookup_if_not_exists st.types_tbl st.types st.type_seq
  let cats := insert_on_conflict_do_nothing categories_name_unique
    seedCategoryNames cats0.1 cats0.2
  let tys := insert_on_conflict_do_nothing types_name_unique
    seedTypeNames tys0.1 tys0.2
  { st with
    users_tbl := true, categories_tbl := true,
    types_tbl := true, transactions_tbl := true,
    categories := cats.1, cat_seq := cats.2,
    types := tys.1, type_seq := tys.2 }

/-- A database with no tables yet, as before the first startup. -/
def emptySchema : SchemaState :=
  ⟨false, false, false, false, [], 1, [], 1⟩

/-- Concrete witness data: user alice (id 1) with one stored expense
transaction (id 10), and a second user's income transaction (id 11). -/
def aliceRec : UserRec := ⟨1, "alice", bcrypt_hashpw "pw123" 7, "alice@example.com"⟩

/-- Transaction 10, owned by user 1. -/
def sampleTxn1 : Txn := ⟨10, 1, 50, 1, "lunch", "2024-01-05", 2⟩

/-- Transaction 11, owned by user 2. -/
def sampleTxn2 : Txn := ⟨11, 2, 30, 2, "bus", "2024-01-06", 1⟩

/-- Witness database state holding both sample rows. -/
def sampleState : DBState := ⟨[aliceRec], 2, [sampleTxn1, sampleTxn2]⟩

/-- The PRIMARY KEY invariant of the `transactions` table: the serial
`transaction_id` column is pairwise distinct. -/
abbrev transactions_pk_unique (st : DBState) : Prop :=
  st.transactions.Pairwise (fun a b => a.transaction_id ≠ b.transaction_id)

/-- The UNIQUE constraint of the `users` table on `username`. -/
abbrev usernames_unique (st : DBState) : Prop :=
  st.users.Pairwise (fun a b => a.username ≠ b.username)

/-- Under the primary-key invariant, `fetchone()` of the lookup by a stored
transaction's id is that transaction. -/
theorem find_txn_eq : ∀ (l : List Txn) (t : Txn), t ∈ l →
    l.Pairwise (fun a b => a.transaction_id ≠ b.transaction_id) →
    l.find? (fun x => x.transaction_id == t.transaction_id) = some t := by
  intro l
  induction l with
  | nil => intro t ht _; cases ht
  | cons a l ih =>
    intro t ht hp
    rw [List.pairwise_cons] at hp
    rcases List.mem_cons.mp ht with rfl | hm
    · exact List.find?_cons_of_pos l (beq_self_eq_true t.transaction_id)
    · have hb : (a.transaction_id == t.transaction_id) = false :=
        beq_eq_false_iff_ne.mpr (hp.1 t hm)
      rw [List.find?_cons_of_neg l (by simp [hb])]
      exact ih t hm hp.2

/-- Under the username UNIQUE constraint, `fetchone()` of the lookup by a
stored user's username is that user. -/
theorem find_user_eq : ∀ (l : List UserRec) (u : UserRec), u ∈ l →
    l.Pairwise (fun a b => a.username ≠ b.username) →
    l.find? (fun x => x.username == u.username) = some u := by
  intro l
  induction l with
  | nil => intro u hu _; cases hu
  | cons a l ih =>
    intro u hu hp
    rw [List.pairwise_cons] at hp
    rcases List.mem_cons.mp hu with rfl | hm
    · exact List.find?_cons_of_pos l (beq_self_eq_true u.username)
    · have hb : (a.username == u.username) = false :=
        beq_eq_false_iff_ne.mpr (hp.1 u hm)
      rw [List.find?_cons_of_neg l (by simp [hb])]
      exact ih u hm hp.2

/-- C1.  The claim says every `User.delete_transaction` /
`User.update_transaction` call is gated by the ownership check, refusing with
the table unchanged when the acting user is not the owner.  The update flow is
gated, but the delete flow never reaches the check: `User.delete_transaction`
evaluates `db.check_eligible`, an attribute the `Database` class does not
define (its method is `check_if_eligible`), so even the owner of transaction
10 gets an uncaught `AttributeError` instead of a gated delete, contradicting
the method's own docstring. -/
theorem C1_owner_delete_raises_attribute_error :
    check_if_eligible sampleState 1 10 = true ∧
    user_delete_transaction sampleState 1 10 =
      .error (.attributeError "check_eligible") ∧
    user_update_transaction sampleState 2 10 (.amount 75) = sampleState :=
  ⟨by decide, rfl, rfl⟩

/-- C3.  The claim says `db_init` is idempotent and the seeded lookup rows
appear exactly once however many startups run it.  In the code the seeding
inserts rely on `ON CONFLICT DO NOTHING`, but the CREATE statements put no
UNIQUE constraint on `category_name` or `type_name`, so no conflict ever
arises and a second `db_init` inserts all eight seed rows again: after two
runs `Food` and `Income` each appear twice. -/
theorem C3_db_init_not_idempotent :
    db_init (db_init emptySchema) ≠ db_init emptySchema ∧
    ((db_init emptySchema).categories.filter (fun r => r.2 == "Food")).length = 1 ∧
    ((db_init (db_init emptySchema)).categories.filter
      (fun r => r.2 == "Food")).length = 2 ∧
    ((db_init (db_init emptySchema)).types.filter
      (fun r => r.2 == "Income")).length = 2 := by
  refine ⟨by decide, by decide, by decide, by decide⟩

/-- C6.  The claim says `Database.get_user` never raises past its boundary,
collapsing every database-error scenario — including a failed connection
attempt — to `None`.  A query-time `psycopg2.DatabaseError` is indeed caught
and collapsed to `None`, but when `connect()` fails it leaves
`self.connection = None` and `self.connection.cursor()` raises
`AttributeError`, which the `except psycopg2.DatabaseError` handler does not
catch, so the error escapes the caller, contradicting the method's docstring. -/
theorem C6_get_user_connect_failure_raises :
    get_user_run (some .connectFail) sampleState "alice" =
      .error (.attributeError "cursor") ∧
    get_user_run (some .queryFail) sampleState "alice" = .ok none ∧
    get_user_run none sampleState "alice" = .ok (some aliceRec) :=
  ⟨rfl, rfl, rfl⟩

/-- C8.  The claim says every non-integer line at a menu prompt — including
the update-transaction flow — is caught and re-prompted, never crashing the
loop.  In `User.update_transaction` the very first read,
`transaction_id = int(input(...))`, stands outside every `try` block, so the
line "abc" raises `ValueError` straight out of the method, contradicting the
method's own docstring, which promises a re-prompt on an invalid transaction
id. -/
theorem C8_update_transaction_crashes_on_noninteger :
    user_update_transaction_entry sampleState 1 "abc" (.amount 75) =
      .error (.valueError "abc") ∧
    user_update_transaction_entry sampleState 1 "10" (.amount 75) =
      .ok (user_update_transaction sampleState 1 10 (.amount 75)) :=
  ⟨rfl, rfl⟩

/-- C9 counterexample.  The claim says the generic query operation the
reporting layer calls exists on the data access layer and returns an empty
sequence on error.  The `Database` class defines no `fetch_data` (nor any
generic `runQuery`) method, and the reporting helper collapses the resulting
`AttributeError` to `None`, not to an empty sequence. -/
theorem C9_counterexample :
    databaseMethods.contains "fetch_data" = false ∧
    fetch_total_income_from_db sampleState 1 = none ∧
    fetch_total_income_from_db sampleState 1 ≠ some [] := by
  refine ⟨by decide, rfl, by decide⟩

/-- C9 amended.  The data access layer has no generic query method: every
`FinancialReport.fetch_*` helper calls the nonexistent `Database.fetch_data`,
catches the resulting `AttributeError` in its `except Exception` handler, and
returns `None` — not an empty sequence — to its caller; the error never
propagates. -/
theorem C9_fetch_helpers_collapse_to_none :
    databaseMethods.contains "fetch_data" = false ∧
    (∀ (st : DBState) (uid : Int), fetch_total_income_from_db st uid = none) ∧
    (∀ (st : DBState) (uid : Int), fetch_total_expenses_from_db st uid = none) ∧
    (∀ (st : DBState) (uid : Int), fetch_all_transactions_from_db st uid = none) :=
  ⟨by decide, fun _ _ => rfl, fun _ _ => rfl, fun _ _ => rfl⟩

/-- A user with no income rows gets the SQL NULL from `SUM`, so
`show_total_income` returns `None`. -/
theorem show_total_income_eq_none_of_no_rows (st : DBState) (uid : Int)
    (hI : ∀ t ∈ st.transactions,
      ¬(t.user_id = uid ∧ t.type_of_transaction = 1)) :
    show_total_income st uid = none := by
  have hf : st.transactions.filter
      (fun t => t.user_id == uid && t.type_of_transaction == 1) = [] := by
    rw [List.filter_eq_nil_iff]
    intro t ht h
    rw [Bool.and_eq_true, beq_iff_eq, beq_iff_eq] at h
    exact hI t ht h
  simp [show_total_income, hf]

/-- A user with no expense rows gets the SQL NULL from `SUM`, so
`show_total_expenses` returns `None`. -/
theorem show_total_expenses_eq_none_of_no_rows (st : DBState) (uid : Int)
    (hE : ∀ t ∈ st.transactions,
      ¬(t.user_id = uid ∧ t.type_of_transaction = 2)) :
    show_total_expenses st uid = none := by
  have hf : st.transactions.filter
      (fun t => t.user_id == uid && t.type_of_transaction == 2) = [] := by
    rw [List.filter_eq_nil_iff]
    intro t ht h
    rw [Bool.and_eq_true, beq_iff_eq, beq_iff_eq] at h
    exact hE t ht h
  simp [show_total_expenses, hf]

/-- C2.  `check_if_eligible` is true exactly on a stored transaction's owner:
under the primary-key invariant of the `transactions` table, the owner of
every stored transaction passes, every other user fails, and an id with no
stored transaction fails for every user. -/
theorem C2_check_if_eligible_characterisation (st : DBState)
    (hpk : transactions_pk_unique st) :
    (∀ t ∈ st.transactions,
      check_if_eligible st t.user_id t.transaction_id = true) ∧
    (∀ t ∈ st.transactions, ∀ u : Int, u ≠ t.user_id →
      check_if_eligible st u t.transaction_id = false) ∧
    (∀ i : Int, (∀ t ∈ st.transactions, t.transaction_id ≠ i) →
      ∀ u : Int, check_if_eligible st u i = false) := by
  refine ⟨?_, ?_, ?_⟩
  · intro t ht
    have hfind := find_txn_eq st.transactions t ht hpk
    simp [check_if_eligible, hfind]
  · intro t ht u hu
    have hfind := find_txn_eq st.transactions t ht hpk
    simp [check_if_eligible, hfind, beq_eq_false_iff_ne.mpr hu]
  · intro i hi u
    have hfind : st.transactions.find? (fun x => x.transaction_id == i) = none := by
      rw [List.find?_eq_none]
      intro x hx
      simp [beq_eq_false_iff_ne.mpr (hi x hx)]
    simp [check_if_eligible, hfind]

/-- C2 witness: in the sample state, user 1 owns transaction 10, user 2 does
not, and no transaction 99 exists. -/
theorem C2_witness :
    check_if_eligible sampleState 1 10 = true ∧
    check_if_eligible sampleState 2 10 = false ∧
    check_if_eligible sampleState 1 99 = false := by
  obtain ⟨h1, h2, h3⟩ :=
    C2_check_if_eligible_characterisation sampleState (by decide)
  exact ⟨h1 sampleTxn1 (by decide), h2 sampleTxn1 (by decide) 2 (by decide),
    h3 99 (by decide) 1⟩

/-- C4.  `User.login` under the username UNIQUE constraint: for a registered
user, the correct password succeeds, every other password fails, and a
username with no stored record fails (the code prints not-found and returns
`False`; its body is total, no exception reaches the caller). -/
theorem C4_login_correct (st : DBState) (hun : usernames_unique st)
    (u : UserRec) (hm : u ∈ st.users) (pw : String) (salt : Nat)
    (hpw : u.password = bcrypt_hashpw pw salt) :
    login st u.username pw = true ∧
    (∀ other : String, other ≠ pw → login st u.username other = false) ∧
    (∀ name : String, (∀ v ∈ st.users, v.username ≠ name) →
      ∀ anypw : String, login st name anypw = false) := by
  have hfind := find_user_eq st.users u hm hun
  refine ⟨?_, ?_, ?_⟩
  · simp [login, get_user, hfind, bcrypt_checkpw, hpw, bcrypt_hashpw]
  · intro other hother
    simp [login, get_user, hfind, bcrypt_checkpw, hpw, bcrypt_hashpw,
      beq_eq_false_iff_ne.mpr hother]
  · intro name hname anypw
    have hnone : st.users.find? (fun x => x.username == name) = none := by
      rw [List.find?_eq_none]
      intro x hx
      simp [beq_eq_false_iff_ne.mpr (hname x hx)]
    simp [login, get_user, hnone]

/-- C4 witness: alice logs in with her password, fails with a wrong one, and
an unknown username fails. -/
theorem C4_witness :
    login sampleState "alice" "pw123" = true ∧
    login sampleState "alice" "wrong" = false ∧
    login sampleState "mallory" "pw123" = false := by
  obtain ⟨h1, h2, h3⟩ := C4_login_correct sampleState (by decide) aliceRec
    (by decide) "pw123" 7 rfl
  exact ⟨h1, h2 "wrong" (by decide), h3 "mallory" (by decide) "pw123"⟩

/-- C5.  When email validation fails, `User.register` returns `False` with
the users table untouched and `db.add_user` never invoked. -/
theorem C5_register_invalid_email_skips_persistence
    (validator : String → Option String) (salt : Nat)
    (username password email : String) (st : DBState)
    (hinv : validator email = none) :
    register validator salt username password email st = ⟨false, st, false⟩ := by
  simp [register, check_email, hinv]

/-- C5 witness: a validator that rejects the address makes registration fail
fast on the sample state. -/
theorem C5_witness :
    register (fun _ => none) 3 "bob" "hunter2" "not-an-email" sampleState =
      ⟨false, sampleState, false⟩ :=
  C5_register_invalid_email_skips_persistence (fun _ => none) 3 "bob"
    "hunter2" "not-an-email" sampleState rfl

/-- C7.  A user with zero rows of the requested type gets `None` from
`Database.show_total_income` / `show_total_expenses` (SQL `SUM` over zero
rows is NULL) and `0` from the reporting layer's `calculate_total_income` /
`calculate_total_expenses`; all four embedded functions are total, so nothing
is raised. -/
theorem C7_zero_rows_yield_none_and_zero (st : DBState) (uid : Int)
    (hI : ∀ t ∈ st.transactions,
      ¬(t.user_id = uid ∧ t.type_of_transaction = 1))
    (hE : ∀ t ∈ st.transactions,
      ¬(t.user_id = uid ∧ t.type_of_transaction = 2)) :
    show_total_income st uid = none ∧
    show_total_expenses st uid = none ∧
    calculate_total_income st uid = 0 ∧
    calculate_total_expenses st uid = 0 :=
  ⟨show_total_income_eq_none_of_no_rows st uid hI,
   show_total_expenses_eq_none_of_no_rows st uid hE, rfl, rfl⟩

/-- C7 witness: user 5 has no transactions in the sample state. -/
theorem C7_witness :
    show_total_income sampleState 5 = none ∧
    show_total_expenses sampleState 5 = none ∧
    calculate_total_income sampleState 5 = 0 ∧
    calculate_total_expenses sampleState 5 = 0 :=
  C7_zero_rows_yield_none_and_zero sampleState 5 (by decide) (by decide)

/-- C10.  `show_total_income` / `show_total_expenses` return `None` both when
the user has no rows of that type (SQL `SUM` over zero rows) and when the
query raises `psycopg2.DatabaseError` (caught, printed, implicit `None`), so
the caller cannot distinguish absence of data from failure by the return
value. -/
theorem C10_absence_and_failure_both_none (st : DBState) (uid : Int)
    (hI : ∀ t ∈ st.transactions,
      ¬(t.user_id = uid ∧ t.type_of_transaction = 1))
    (hE : ∀ t ∈ st.transactions,
      ¬(t.user_id = uid ∧ t.type_of_transaction = 2)) :
    show_total_income_run none st uid = .ok none ∧
    show_total_income_run (some .queryFail) st uid = .ok none ∧
    show_total_expenses_run none st uid = .ok none ∧
    show_total_expenses_run (some .queryFail) st uid = .ok none := by
  refine ⟨?_, rfl, ?_, rfl⟩
  · simp [show_total_income_run, show_total_income_eq_none_of_no_rows st uid hI]
  · simp [show_total_expenses_run, show_total_expenses_eq_none_of_no_rows st uid hE]

/-- C10 witness: for user 5 (no rows) the no-fault run and the query-fault
run return the same `None`. -/
theorem C10_witness :
    show_total_income_run none sampleState 5 = .ok none ∧
    show_total_income_run (some .queryFail) sampleState 5 = .ok none ∧
    show_total_expenses_run none sampleState 5 = .ok none ∧
    show_total_expenses_run (some .queryFail) sampleState 5 = .ok none :=
  C10_absence_and_failure_both_none sampleState 5 (by decide) (by decide)

end ExpenseTracker
